import Mathlib

/-!
Shallow embedding of the task-tracking backend core
(task model `models/Task.ts`, controller `controllers/taskController.ts`,
cron job `jobs/taskCron.ts`, route validation `routes/taskRoutes.ts`,
db helpers `utils/dbHelpers.ts`).

User and task ids are modelled as `Nat`; instants (JS `Date`) as `Int`
milliseconds since the epoch.  Fallible paths return explicit error values
mirroring the thrown `Error` objects and the mongoose `ValidationError`s,
and each Express handler is a pure function from a store and a request to
the updated store and the HTTP response it sends.
-/

namespace TaskApp

/-- `TaskStatus` enum from `models/Task.ts`. -/
inductive TaskStatus where
  | pending
  | inProgress
  | done
deriving DecidableEq, Repr

/-- `TaskPriority` enum from `models/Task.ts`. -/
inductive TaskPriority where
  | low
  | medium
  | high
  | urgent
deriving DecidableEq, Repr

/-- Embedded comment subdocument (`commentSchema`). -/
structure TaskComment where
  userId : Nat
  text : String
  createdAt : Int
deriving DecidableEq, Repr

/-- A task document (`taskSchema` in `models/Task.ts`).  `userId` is the
owner.  `id` stands for the Mongo `_id`. -/
structure Task where
  id : Nat
  title : String
  description : String
  status : TaskStatus
  priority : TaskPriority
  userId : Nat
  collaborators : List Nat
  tags : List String
  category : String
  completedAt : Option Int
  startedAt : Option Int
  dueDate : Option Int
  estimatedTime : Option Nat
  comments : List TaskComment
  createdAt : Int
  updatedAt : Int
deriving DecidableEq, Repr

/-- The persistent state: the set of existing user ids, the task
collection, and the id supply used for newly created tasks. -/
structure Store where
  users : List Nat
  tasks : List Task
  nextId : Nat
deriving DecidableEq, Repr

/-- JS `String.prototype.includes` (substring test), used by the
controllers' catch blocks to dispatch on `error.message`. -/
def strIncludes (s sub : String) : Bool :=
  decide (sub.toList <:+: s.toList)

/-- JS `String.prototype.trim` / the mongoose `trim: true` sanitizer
(char-list implementation so that concrete instances evaluate). -/
def trimStr (s : String) : String :=
  String.mk (((s.toList.dropWhile Char.isWhitespace).reverse.dropWhile
    Char.isWhitespace).reverse)

/-- Lower-casing, for case-insensitive comparisons (char-list
implementation so that concrete instances evaluate). -/
def lowerStr (s : String) : String := String.mk (s.toList.map Char.toLower)

/-- Status-transition side effects exactly as written inline in
`updateTaskStatus` (`taskController.ts` lines 196-205): assign the new
status, then derive `completedAt` / `startedAt`. -/
def applyStatusTransition (t : Task) (newStatus : TaskStatus) (now : Int) : Task :=
  let t1 := { t with status := newStatus }
  let t2 :=
    if newStatus = .done && t1.completedAt.isNone then
      { t1 with completedAt := some now } else t1
  let t3 :=
    if newStatus = .inProgress && t2.startedAt.isNone then
      { t2 with startedAt := some now } else t2
  if newStatus ≠ .done && t3.completedAt.isSome then
    { t3 with completedAt := none } else t3

/-- The `taskSchema.pre("save")` hook (`models/Task.ts` lines 203-216):
runs on the already-mutated document; `statusModified` is mongoose's
`this.isModified("status")`. -/
def preSaveHook (t : Task) (statusModified : Bool) (now : Int) : Task :=
  if statusModified then
    let t1 :=
      if t.status = .done && t.completedAt.isNone then
        { t with completedAt := some now } else t
    let t2 :=
      if t1.status = .inProgress && t1.startedAt.isNone then
        { t1 with startedAt := some now } else t1
    if t2.status ≠ .done && t2.completedAt.isSome then
      { t2 with completedAt := none } else t2
  else t

/-- Mongoose marks a path modified only when it is set to a different
value, so after `task.status = status` the hook sees
`isModified("status") = (status ≠ old status)`.  The combined effect of
the controller's inline mutation followed by `save()` is therefore: -/
def ctrlStatusChange (t : Task) (newStatus : TaskStatus) (now hookNow : Int) : Task :=
  preSaveHook (applyStatusTransition t newStatus now)
    (decide (newStatus ≠ t.status)) hookNow

/-- Mongoose document validation (`validateBeforeSave`): one message per
violated path, with the schema's message strings.  `isNew` matters only
for the `dueDate` future rule (`!this.isNew || !d || d > now`). -/
def validateTask (users : List Nat) (t : Task) (isNew : Bool) (now : Int) :
    List String :=
  (if t.title = "" then ["Title is required"]
   else if t.title.length < 3 then ["Title must be at least 3 characters"]
   else if t.title.length > 100 then ["Title too long"] else [])
  ++ (if t.description = "" then ["Description is required"]
      else if t.description.length > 1000 then ["Description too long"] else [])
  ++ (if t.userId ∈ users then [] else ["User not found"])
  ++ (if t.collaborators.all (fun c => decide (c ∈ users)) then []
      else ["Some collaborators do not exist"])
  ++ (if t.tags.all (fun tg => decide (tg.length ≤ 20)) then []
      else ["Tags max 20 chars"])
  ++ (if t.category.length > 30 then ["Category too long"] else [])
  ++ (match t.completedAt with
      | some d => if d ≤ now then [] else ["Completed date can't be future"]
      | none => [])
  ++ (match t.dueDate with
      | some d => if ¬isNew ∨ d > now then [] else ["Due date must be in future"]
      | none => [])
  ++ (match t.estimatedTime with
      | some n =>
          if n < 1 then ["At least 1 min"]
          else if n > 10080 then ["Max 10080 min"] else []
      | none => [])
  ++ (if t.comments.all (fun c => decide (c.text.length ≤ 500)) then []
      else ["Comment too long"])

/-- Errors thrown inside the db operations: a plain `new Error(msg)`
(whose `name` is `"Error"`) or a mongoose `ValidationError` carrying the
per-path messages. -/
inductive DbErr where
  | plain (message : String)
  | validation (messages : List String)
deriving DecidableEq, Repr

/-- `error.message` as the catch blocks see it. -/
def DbErr.msgText : DbErr → String
  | .plain m => m
  | .validation ms => "Task validation failed: " ++ String.intercalate ", " ms

/-- `error.name === "ValidationError"`. -/
def DbErr.isValidation : DbErr → Bool
  | .plain _ => false
  | .validation _ => true

/-- `formatDbError` from `utils/dbHelpers.ts` restricted to the error
shapes the task controllers produce: a `ValidationError` becomes
`"Validation failed: <messages>"`; a plain error passes its message
through. -/
def formatDbError : DbErr → String
  | .plain m => m
  | .validation ms => "Validation failed: " ++ String.intercalate ", " ms

/-- Pagination block computed in `getTasks` (lines 150-156). -/
structure Pagination where
  totalTasks : Nat
  totalPages : Nat
  currentPage : Nat
  hasNextPage : Bool
  hasPrevPage : Bool
deriving DecidableEq, Repr

/-- Bodies of the JSON responses the task controllers send. -/
inductive RespBody where
  | task (t : Task)
  | taskList (items : List Task) (pag : Pagination)
  | msg (m : String)
  | serverError (m : String)
  | validationErrors (msgs : List String)
deriving DecidableEq, Repr

/-- An HTTP response: status code plus JSON body. -/
structure Resp where
  status : Nat
  body : RespBody
deriving DecidableEq, Repr

/-- `req.body` of `POST /tasks` after request framing. -/
structure CreateInput where
  title : String
  description : String
  priority : Option TaskPriority
  dueDate : Option Int
  estimatedTime : Option Nat
  tags : Option (List String)
  category : Option String
  collaborators : Option (List Nat)
deriving DecidableEq, Repr

/-- JS `x || undefined` on an optional number: `0` is falsy. -/
def jsOrNat : Option Nat → Option Nat
  | some 0 => none
  | x => x

/-- JS `x || undefined` on an optional instant: epoch `0` is falsy. -/
def jsOrInt : Option Int → Option Int
  | some 0 => none
  | x => x

/-- `category || "Uncategorized"` (empty string is falsy), then the
schema's `trim`. -/
def jsOrCategory : Option String → String
  | some c => if c = "" then "Uncategorized" else trimStr c
  | none => "Uncategorized"

/-- The express-validator chain of `POST /tasks`
(`routes/taskRoutes.ts` lines 151-198).  The `collaborators.*` custom
validator resolves each id against the user collection and reports a
message naming the id. -/
def createRouteValidationErrors (users : List Nat) (inp : CreateInput) :
    List String :=
  (if (trimStr inp.title).length < 3 then
    ["Title must be at least 3 characters long"] else [])
  ++ (if trimStr inp.description = "" then ["Description is required"] else [])
  ++ (match inp.tags with
      | none => []
      | some ts => ts.filterMap fun tg =>
          if tg.length > 20 then some "Each tag must be 20 characters or less"
          else none)
  ++ (match inp.category with
      | none => []
      | some c =>
          if c.length > 30 then ["Category must be 30 characters or less"]
          else [])
  ++ (match inp.collaborators with
      | none => []
      | some ids =>
          (if ids.length > 10 then ["Maximum 10 collaborators allowed"] else [])
          ++ ids.filterMap fun c =>
              if c ∈ users then none
              else some ("Collaborator with ID " ++ toString c ++
                " does not exist"))

/-- `User.countDocuments({_id: {$in: ids}})`: the number of existing
users whose id appears in `ids`. -/
def countExistingUsers (users : List Nat) (ids : List Nat) : Nat :=
  (users.filter fun u => decide (u ∈ ids)).length

/-- The unique `(title, userId)` index uses collation strength 2, i.e.
case-insensitive comparison. -/
def ciEq (a b : String) : Bool := lowerStr a == lowerStr b

/-- The document `Task.create` builds in `createTask` (lines 50-61):
`status` forced to pending, JS `||` defaulting for the optional fields,
schema defaults and `trim` applied. -/
def createdTask (s : Store) (now : Int) (uid : Nat) (inp : CreateInput) :
    Task :=
  { id := s.nextId
    title := trimStr inp.title
    description := trimStr inp.description
    status := .pending
    priority := inp.priority.getD .medium
    userId := uid
    collaborators := inp.collaborators.getD []
    tags := inp.tags.getD []
    category := jsOrCategory inp.category
    completedAt := none
    startedAt := none
    dueDate := jsOrInt inp.dueDate
    estimatedTime := jsOrNat inp.estimatedTime
    comments := []
    createdAt := now
    updatedAt := now }

/-- The body of `createTask`'s `withRetry` closure (lines 33-62): owner
existence, exact-match duplicate probe, in-controller collaborator count,
then `Task.create` (schema validation, then the unique index - whose
duplicate-key rejection the `post("save")` hook translates into the same
"already exists" error). -/
def createTaskCore (s : Store) (now : Int) (uid : Nat) (inp : CreateInput) :
    Except DbErr Task :=
  if uid ∉ s.users then .error (.plain "User not found")
  else if s.tasks.any (fun t =>
      t.title == trimStr inp.title && t.userId == uid) then
    .error (.plain "Task with this title already exists for this user")
  else if (match inp.collaborators with
      | some ids =>
          decide (0 < ids.length) &&
            !(countExistingUsers s.users ids == ids.length)
      | none => false) then
    .error (.plain "One or more collaborators don't exist")
  else
    let t := createdTask s now uid inp
    let verrs := validateTask s.users t true now
    if verrs ≠ [] then .error (.validation verrs)
    else if s.tasks.any (fun u => u.userId == uid && ciEq u.title t.title) then
      .error (.plain "Task with this title already exists for this user")
    else .ok t

/-- The full `POST /tasks` pipeline: the route's validator chain feeds
`validationResult` (controller lines 14-18), then the `withRetry` body
runs and its failure is mapped by the catch block (lines 65-79). -/
def createTaskHandler (s : Store) (now : Int) (uid : Nat)
    (inp : CreateInput) : Store × Resp :=
  let verrs := createRouteValidationErrors s.users inp
  if verrs ≠ [] then (s, ⟨400, .validationErrors verrs⟩)
  else
    match createTaskCore s now uid inp with
    | .ok t =>
        ({ s with tasks := s.tasks ++ [t], nextId := s.nextId + 1 },
         ⟨201, .task t⟩)
    | .error e =>
        let m := formatDbError e
        if strIncludes e.msgText "already exists" || e.isValidation then
          (s, ⟨400, .msg m⟩)
        else if strIncludes e.msgText "User not found" then
          (s, ⟨404, .msg m⟩)
        else (s, ⟨500, .serverError m⟩)

/-- Query-string filters of `GET /tasks` as `getTasks` reads them
(lines 85-97). -/
structure ListFilters where
  status : Option TaskStatus
  priority : Option TaskPriority
  tags : Option (List String)
  category : Option String
  search : Option String
  isCollaborator : Bool
  dueDateFrom : Option Int
  dueDateTo : Option Int
deriving DecidableEq, Repr

/-- The value stored under the single `$or` key of the query object.
`getTasks` writes this key twice: the base-visibility disjunction
(line 114) and later the search disjunction (lines 125-128); the second
write overwrites the first. -/
inductive OrCond where
  | ownerOrCollab (uid : Nat)
  | searchRegex (term : String)
deriving DecidableEq, Repr

/-- The MongoDB filter object built by `getTasks` (lines 112-138). -/
structure MongoQuery where
  userId : Option Nat
  orCond : Option OrCond
  status : Option TaskStatus
  priority : Option TaskPriority
  tagsIn : Option (List String)
  category : Option String
  dueGte : Option Int
  dueLte : Option Int
deriving DecidableEq, Repr

/-- Build the query object field by field, in source order.  Note the
JS falsiness guards (`if (category)`, `if (searchTerm)`) and that a
search term reassigns `query.$or`. -/
def buildTaskQuery (uid : Nat) (f : ListFilters) : MongoQuery :=
  let q : MongoQuery :=
    if f.isCollaborator then
      ⟨none, some (.ownerOrCollab uid), none, none, none, none, none, none⟩
    else ⟨some uid, none, none, none, none, none, none, none⟩
  let q := match f.status with
    | some st => { q with status := some st }
    | none => q
  let q := match f.priority with
    | some p => { q with priority := some p }
    | none => q
  let q := match f.tags with
    | some ts => if 0 < ts.length then { q with tagsIn := some ts } else q
    | none => q
  let q := match f.category with
    | some c => if c ≠ "" then { q with category := some c } else q
    | none => q
  let q := match f.search with
    | some term =>
        if term ≠ "" then { q with orCond := some (.searchRegex term) } else q
    | none => q
  { q with dueGte := f.dueDateFrom, dueLte := f.dueDateTo }

/-- Case-insensitive substring match: `$regex` with option `"i"`, for
search terms without regex metacharacters. -/
def strIncludesCI (s term : String) : Bool :=
  strIncludes (lowerStr s) (lowerStr term)

/-- Whether a task document satisfies the filter object. -/
def taskMatches (q : MongoQuery) (t : Task) : Bool :=
  (match q.userId with
   | some u => decide (t.userId = u)
   | none => true)
  && (match q.orCond with
      | some (.ownerOrCollab u) =>
          decide (t.userId = u) || decide (u ∈ t.collaborators)
      | some (.searchRegex term) =>
          strIncludesCI t.title term || strIncludesCI t.description term
      | none => true)
  && (match q.status with
      | some st => decide (t.status = st)
      | none => true)
  && (match q.priority with
      | some p => decide (t.priority = p)
      | none => true)
  && (match q.tagsIn with
      | some ts => ts.any fun tg => decide (tg ∈ t.tags)
      | none => true)
  && (match q.category with
      | some c => decide (t.category = c)
      | none => true)
  && (match q.dueGte with
      | some lo => (match t.dueDate with
          | some d => decide (lo ≤ d)
          | none => false)
      | none => true)
  && (match q.dueLte with
      | some hi => (match t.dueDate with
          | some d => decide (d ≤ hi)
          | none => false)
      | none => true)

/-- Sort key used by `.sort({ [sortBy]: sortOrder })` for the fields the
route admits (`createdAt`, `updatedAt`, `dueDate`, `priority`).
`priority` is stored as a string, so Mongo compares it lexicographically;
a missing `dueDate` (BSON null) sorts before every date.  Any other key
is absent from all documents, so all documents tie.  How ties are broken
is irrelevant to every claim below; only membership and length are. -/
def sortKeyLe (sortBy : String) (a b : Task) : Bool :=
  if sortBy = "createdAt" then decide (a.createdAt ≤ b.createdAt)
  else if sortBy = "updatedAt" then decide (a.updatedAt ≤ b.updatedAt)
  else if sortBy = "dueDate" then
    match a.dueDate, b.dueDate with
    | none, _ => true
    | some _, none => false
    | some x, some y => decide (x ≤ y)
  else if sortBy = "priority" then
    decide (priorityName a.priority ≤ priorityName b.priority)
  else true
where
  priorityName : TaskPriority → String
    | .low => "low"
    | .medium => "medium"
    | .high => "high"
    | .urgent => "urgent"

/-- Direction: `sortOrder === "asc" ? 1 : -1`. -/
def taskSortLe (sortBy : String) (asc : Bool) (a b : Task) : Bool :=
  if asc then sortKeyLe sortBy a b else sortKeyLe sortBy b a

/-- Insertion step of the sort. -/
def insertSorted (le : Task → Task → Bool) (x : Task) :
    List Task → List Task
  | [] => [x]
  | y :: ys => if le y x then y :: insertSorted le x ys else x :: y :: ys

/-- The store's sort of the filtered result set. -/
def sortTasks (le : Task → Task → Bool) : List Task → List Task
  | [] => []
  | x :: xs => insertSorted le x (sortTasks le xs)

/-- `Math.ceil(totalTasks / limit)` on naturals (for positive `limit`). -/
def ceilOfDiv (a b : Nat) : Nat := (a + b - 1) / b

/-- Sorting and paging parameters of `GET /tasks` (lines 88-101):
`sortBy` defaults to `"createdAt"`, direction to descending, `page` to 1
and `limit` to 10. -/
structure ListParams where
  sortBy : String
  sortAsc : Bool
  page : Nat
  limit : Nat
deriving DecidableEq, Repr

/-- The `GET /tasks` handler (`getTasks`, lines 83-171).  The effective
identity is `req.query.userId || req.user._id` (line 85); `protect`
guarantees an authenticated id, so the `!userId` guard cannot fire.  A
missing user throws `"User not found"`, which the catch block maps to
404; otherwise the filtered, sorted, skipped and limited page plus the
pagination block over the same filtered set are returned. -/
def getTasksHandler (s : Store) (authUid : Nat) (queryUserId : Option Nat)
    (f : ListFilters) (p : ListParams) : Store × Resp :=
  let uid := queryUserId.getD authUid
  if uid ∉ s.users then (s, ⟨404, .msg "User not found"⟩)
  else
    let q := buildTaskQuery uid f
    let matching := s.tasks.filter (taskMatches q)
    let sorted := sortTasks (taskSortLe p.sortBy p.sortAsc) matching
    let items := (sorted.drop ((p.page - 1) * p.limit)).take p.limit
    let total := matching.length
    (s, ⟨200, .taskList items
      ⟨total, ceilOfDiv total p.limit, p.page,
        decide (p.page * p.limit < total), decide (1 < p.page)⟩⟩)

/-- Replace the document with the given `_id` by its saved new version
(ids of live tasks are unique, see `idsNodup` below). -/
def replaceTask (s : Store) (tid : Nat) (t2 : Task) : Store :=
  { s with tasks := s.tasks.map fun u => if u.id = tid then t2 else u }

/-- The 404 response shared by every "not found or not authorized"
outcome (`formatDbError` passes the thrown message through). -/
def notFoundResp : Resp := ⟨404, .msg "Task not found or not authorized"⟩

/-- `PATCH /tasks/:id/status` (`updateTaskStatus`, lines 174-227): the
route already pinned `status` to the enum, so `validationResult` passes;
`findOne({_id, $or: [{userId}, {collaborators}]})` merges absence and
lack of authorization; then the inline transition runs and `save()`
triggers the hook and schema validation. -/
def updateTaskStatusHandler (s : Store) (uid tid : Nat)
    (newStatus : TaskStatus) (now : Int) : Store × Resp :=
  match s.tasks.find? (fun t => decide (t.id = tid) &&
      (decide (t.userId = uid) || decide (uid ∈ t.collaborators))) with
  | none => (s, notFoundResp)
  | some t =>
      let t2 := { ctrlStatusChange t newStatus now now with updatedAt := now }
      let verrs := validateTask s.users t2 false now
      if verrs ≠ [] then
        (s, ⟨400, .msg (formatDbError (.validation verrs))⟩)
      else (replaceTask s tid t2, ⟨200, .task t2⟩)

/-- `DELETE /tasks/:id` (`deleteTask`, lines 230-262): owner-only
`findOne({_id, userId})`, then `deleteOne({_id})`. -/
def deleteTaskHandler (s : Store) (uid tid : Nat) : Store × Resp :=
  match s.tasks.find? (fun t =>
      decide (t.id = tid) && decide (t.userId = uid)) with
  | none => (s, notFoundResp)
  | some _ =>
      ({ s with tasks := s.tasks.eraseP fun t => decide (t.id = tid) },
       ⟨200, .msg "Task removed successfully"⟩)

/-- `req.body` of `PATCH /tasks/:id` (partial update). -/
structure UpdateDetailsInput where
  title : Option String
  description : Option String
  priority : Option TaskPriority
  dueDate : Option Int
  estimatedTime : Option Nat
  tags : Option (List String)
  category : Option String
  collaborators : Option (List Nat)
deriving DecidableEq, Repr

/-- The express-validator chain of `PATCH /tasks/:id`
(`routes/taskRoutes.ts` lines 452-502); every field optional. -/
def updateRouteValidationErrors (users : List Nat)
    (inp : UpdateDetailsInput) : List String :=
  (match inp.title with
   | none => []
   | some v => if (trimStr v).length < 3 then
      ["Title must be at least 3 characters long"] else [])
  ++ (match inp.description with
      | none => []
      | some v => if trimStr v = "" then ["Description cannot be empty"] else [])
  ++ (match inp.tags with
      | none => []
      | some ts => ts.filterMap fun tg =>
          if tg.length > 20 then some "Each tag must be 20 characters or less"
          else none)
  ++ (match inp.category with
      | none => []
      | some c =>
          if c.length > 30 then ["Category must be 30 characters or less"]
          else [])
  ++ (match inp.collaborators with
      | none => []
      | some ids =>
          (if ids.length > 10 then ["Maximum 10 collaborators allowed"] else [])
          ++ ids.filterMap fun c =>
              if c ∈ users then none
              else some ("Collaborator with ID " ++ toString c ++
                " does not exist"))

/-- `if (title !== undefined) task.title = title` (schema `trim` applies
on set). -/
def setTitleField (t : Task) : Option String → Task
  | some v => { t with title := trimStr v }
  | none => t

def setDescriptionField (t : Task) : Option String → Task
  | some v => { t with description := trimStr v }
  | none => t

def setPriorityField (t : Task) : Option TaskPriority → Task
  | some v => { t with priority := v }
  | none => t

def setDueDateField (t : Task) : Option Int → Task
  | some v => { t with dueDate := some v }
  | none => t

def setEstimatedTimeField (t : Task) : Option Nat → Task
  | some v => { t with estimatedTime := some v }
  | none => t

def setTagsField (t : Task) : Option (List String) → Task
  | some v => { t with tags := v }
  | none => t

def setCategoryField (t : Task) : Option String → Task
  | some v => { t with category := trimStr v }
  | none => t

/-- The field assignments of `updateTaskDetails` (lines 293-299), in
source order, collaborators excluded (they are guarded by the existence
count, lines 301-311). -/
def applyDetails (t : Task) (inp : UpdateDetailsInput) : Task :=
  let t := setTitleField t inp.title
  let t := setDescriptionField t inp.description
  let t := setPriorityField t inp.priority
  let t := setDueDateField t inp.dueDate
  let t := setEstimatedTimeField t inp.estimatedTime
  let t := setTagsField t inp.tags
  setCategoryField t inp.category

/-- The transaction body of `updateTaskDetails` (lines 289-316):
owner-only lookup, partial assignments, collaborator existence count,
`save()` (hook is a no-op since `status` is untouched; schema validation
with `isNew = false`; the case-insensitive unique index may still reject
a rename that collides with another of the owner's tasks). -/
def updateTaskDetailsCore (s : Store) (uid tid : Nat)
    (inp : UpdateDetailsInput) (now : Int) : Except DbErr Task :=
  match s.tasks.find? (fun t =>
      decide (t.id = tid) && decide (t.userId = uid)) with
  | none => .error (.plain "Task not found or not authorized")
  | some t =>
      let t2 := applyDetails t inp
      if (match inp.collaborators with
          | some ids =>
              decide (0 < ids.length) &&
                !(countExistingUsers s.users ids == ids.length)
          | none => false) then
        .error (.plain "One or more collaborators don't exist")
      else
        let t3 := match inp.collaborators with
          | some ids => { t2 with collaborators := ids }
          | none => t2
        let t4 := { t3 with updatedAt := now }
        let verrs := validateTask s.users t4 false now
        if verrs ≠ [] then .error (.validation verrs)
        else if s.tasks.any (fun u => !(decide (u.id = tid)) &&
            u.userId == uid && ciEq u.title t4.title) then
          .error (.plain "Task with this title already exists for this user")
        else .ok t4

/-- `PATCH /tasks/:id` (`updateTaskDetails`, lines 265-337): route
validators, transaction body, catch mapping (404 for not found / not
authorized, 400 for `ValidationError` or the collaborator message, 500
otherwise - including a duplicate-title rename). -/
def updateTaskDetailsHandler (s : Store) (uid tid : Nat)
    (inp : UpdateDetailsInput) (now : Int) : Store × Resp :=
  let verrs := updateRouteValidationErrors s.users inp
  if verrs ≠ [] then (s, ⟨400, .validationErrors verrs⟩)
  else
    match updateTaskDetailsCore s uid tid inp now with
    | .ok t4 => (replaceTask s tid t4, ⟨200, .task t4⟩)
    | .error e =>
        let m := formatDbError e
        if strIncludes e.msgText "not found" ||
            strIncludes e.msgText "not authorized" then
          (s, ⟨404, .msg m⟩)
        else if e.isValidation || strIncludes e.msgText "don't exist" then
          (s, ⟨400, .msg m⟩)
        else (s, ⟨500, .serverError m⟩)

/-- `POST /tasks/:id/comments` (`addComment`, lines 340-389): route
validates the text, lookup is owner-or-collaborator, the comment is
appended with `createdAt = now`. -/
def addCommentHandler (s : Store) (uid tid : Nat) (text : String)
    (now : Int) : Store × Resp :=
  let verrs :=
    (if trimStr text = "" then ["Comment text is required"] else [])
    ++ (if (trimStr text).length > 500 then
        ["Comment must be 500 characters or less"] else [])
  if verrs ≠ [] then (s, ⟨400, .validationErrors verrs⟩)
  else
    match s.tasks.find? (fun t => decide (t.id = tid) &&
        (decide (t.userId = uid) || decide (uid ∈ t.collaborators))) with
    | none => (s, notFoundResp)
    | some t =>
        let t2 := { t with
          comments := t.comments ++ [⟨uid, trimStr text, now⟩]
          updatedAt := now }
        let cerrs := validateTask s.users t2 false now
        if cerrs ≠ [] then
          (s, ⟨400, .msg (formatDbError (.validation cerrs))⟩)
        else (replaceTask s tid t2, ⟨201, .task t2⟩)

/-- Two hours in milliseconds (`2 * 60 * 60 * 1000`, `taskCron.ts`
line 9). -/
def staleCutoffMs : Int := 2 * 60 * 60 * 1000

/-- The reaper's selection predicate:
`{status: IN_PROGRESS, startedAt: {$lt: new Date(now - 2h)}}`.  A null
`startedAt` never satisfies `$lt` a date. -/
def taskIsStale (now : Int) (t : Task) : Bool :=
  decide (t.status = .inProgress) &&
    (match t.startedAt with
     | some v => decide (v < now - staleCutoffMs)
     | none => false)

/-- What one `task.save()` inside the sweep does to one selected task
(`taskCron.ts` lines 23-26): assign `status = DONE` and
`completedAt = now`, then the pre-save hook runs (and finds nothing
left to derive); a task whose save fails validation is logged and left
as it was. -/
def sweepStep (users : List Nat) (now : Int) (t : Task) : Task :=
  if taskIsStale now t then
    let t2 := preSaveHook
      { t with status := .done, completedAt := some now, updatedAt := now }
      true now
    if validateTask users t2 false now = [] then t2 else t
  else t

/-- One sweep of `autoCloseTasks` (`taskCron.ts` lines 5-34). -/
def autoCloseTasks (s : Store) (now : Int) : Store :=
  { s with tasks := s.tasks.map (sweepStep s.users now) }

/-- The operations that can touch the task collection. -/
inductive Op where
  | create (uid : Nat) (inp : CreateInput) (now : Int)
  | updateStatus (uid tid : Nat) (st : TaskStatus) (now : Int)
  | updateDetails (uid tid : Nat) (inp : UpdateDetailsInput) (now : Int)
  | delete (uid tid : Nat)
  | comment (uid tid : Nat) (text : String) (now : Int)
  | sweep (now : Int)

/-- The store after one operation (the response is discarded). -/
def applyOp (s : Store) : Op → Store
  | .create uid inp now => (createTaskHandler s now uid inp).1
  | .updateStatus uid tid st now => (updateTaskStatusHandler s uid tid st now).1
  | .updateDetails uid tid inp now =>
      (updateTaskDetailsHandler s uid tid inp now).1
  | .delete uid tid => (deleteTaskHandler s uid tid).1
  | .comment uid tid text now => (addCommentHandler s uid tid text now).1
  | .sweep now => autoCloseTasks s now

/-- Stores observable in a system that starts with a user base and an
empty task collection and evolves only through the exposed operations. -/
inductive Reachable (users : List Nat) : Store → Prop where
  | init : Reachable users ⟨users, [], 0⟩
  | step {s : Store} (op : Op) : Reachable users s → Reachable users (applyOp s op)

/-- A task in a state where the spec invariants hold:
`done ⟺ completedAt` set, and a task currently in progress has
`startedAt` set. -/
def WFTask (t : Task) : Prop :=
  (t.status = .done ↔ t.completedAt ≠ none) ∧
    (t.status = .inProgress → t.startedAt ≠ none)

/-- The store minus every task with the given id: what the world looks
like to a caller when the task simply does not exist. -/
def removeTask (s : Store) (tid : Nat) : Store :=
  { s with tasks := s.tasks.filter fun t => !(decide (t.id = tid)) }

/-! ### Concrete fixtures used by witnesses and counterexamples -/

/-- The spec's running example task (§8), owned by user 1. -/
def sampleTask : Task :=
  { id := 0
    title := "Ship report"
    description := "Q3 numbers"
    status := .pending
    priority := .medium
    userId := 1
    collaborators := []
    tags := []
    category := "Uncategorized"
    completedAt := none
    startedAt := none
    dueDate := none
    estimatedTime := none
    comments := []
    createdAt := 0
    updatedAt := 0 }

/-- A task owned by user 2 on which user 1 has no rights at all. -/
def strangerTask : Task :=
  { sampleTask with title := "alpha report", description := "numbers"
                    userId := 2 }

/-- Store for the search-overwrite scenario: users 1 and 2, one task
owned by user 2 with no collaborators. -/
def c1Store : Store := ⟨[1, 2], [strangerTask], 1⟩

/-- `GET /tasks?isCollaborator=true&search=alpha`. -/
def c1Filters : ListFilters :=
  ⟨none, none, none, none, some "alpha", true, none, none⟩

/-- The controller's default sorting/paging values. -/
def defaultParams : ListParams := ⟨"createdAt", false, 1, 10⟩

/-- A store whose only task is `sampleTask`, owned by user 1. -/
def c5Store : Store := ⟨[1], [sampleTask], 1⟩

/-- A create request duplicating `sampleTask`'s (title, owner). -/
def c5DupInput : CreateInput :=
  ⟨"Ship report", "Q3 numbers", none, none, none, none, none, none⟩

/-- A 101-character title: passes the route's min-length check but fails
the schema's 100-character cap, producing a mongoose `ValidationError`. -/
def longTitle : String := String.mk (List.replicate 101 'a')

/-- A create request that fails only mongoose validation. -/
def c5InvalidInput : CreateInput :=
  ⟨longTitle, "some description", none, none, none, none, none, none⟩

/-- A create request naming collaborator 42, who does not exist. -/
def c6Input : CreateInput :=
  ⟨"New task", "something to do", none, none, none, none, none, some [42]⟩

/-- Store with only user 1, no tasks. -/
def c6Store : Store := ⟨[1], [], 0⟩

/-- Sweep instant for the reaper scenario. -/
def c7Now : Int := 100000000

/-- In progress since 3 hours before the sweep. -/
def staleTask : Task :=
  { sampleTask with id := 3, status := .inProgress
                    startedAt := some (c7Now - 10800000) }

/-- In progress since 1 hour before the sweep. -/
def freshTask : Task :=
  { sampleTask with id := 4, title := "Fresh item"
                    status := .inProgress
                    startedAt := some (c7Now - 3600000) }

/-- Store swept by the reaper witness. -/
def c7Store : Store := ⟨[1], [staleTask, freshTask], 5⟩

/-- `i`-th of 25 owner-1 tasks for the pagination witness. -/
def mkNumberedTask (i : Nat) : Task :=
  { sampleTask with id := i, createdAt := (i : Int) }

/-- A store with 25 tasks owned by user 1. -/
def c9Store : Store := ⟨[1], (List.range 25).map mkNumberedTask, 25⟩

/-- No filters, owner-only visibility. -/
def noFilters : ListFilters :=
  ⟨none, none, none, none, none, false, none, none⟩

/-- Page 3 of size 10, default sort. -/
def c9Params : ListParams := ⟨"createdAt", false, 3, 10⟩

/-- The create input used by the reachable-store witnesses. -/
def shipInput : CreateInput :=
  ⟨"Ship report", "Q3 numbers", none, none, none, none, none, none⟩

/-- A detail update that touches nothing. -/
def emptyDetails : UpdateDetailsInput :=
  ⟨none, none, none, none, none, none, none, none⟩

/-- The §3 timestamp invariant for a single task:
`status = done ⟺ completedAt` is set. -/
def TimestampInv (t : Task) : Prop :=
  t.status = TaskStatus.done ↔ t.completedAt ≠ none

/-! ### Theorems: transition characterization and helper lemmas -/

/-- After the controller's inline transition the hook finds nothing left
to do, whatever its `isModified` flag and clock read. -/
theorem preSaveHook_applyStatusTransition (t : Task) (st : TaskStatus)
    (now hookNow : Int) (b : Bool) :
    preSaveHook (applyStatusTransition t st now) b hookNow =
      applyStatusTransition t st now := by
  unfold preSaveHook applyStatusTransition
  cases st <;> cases b <;>
    cases hc : t.completedAt <;> cases hs : t.startedAt <;> simp [hc, hs]

theorem ctrlStatusChange_eq_applyStatusTransition (t : Task)
    (st : TaskStatus) (now hookNow : Int) :
    ctrlStatusChange t st now hookNow = applyStatusTransition t st now :=
  preSaveHook_applyStatusTransition ..

theorem length_insertSorted (le : Task → Task → Bool) (x : Task)
    (l : List Task) : (insertSorted le x l).length = l.length + 1 := by
  induction l with
  | nil => rfl
  | cons y ys ih =>
      unfold insertSorted
      by_cases h : le y x = true <;> simp [h, ih]

theorem length_sortTasks (le : Task → Task → Bool) (l : List Task) :
    (sortTasks le l).length = l.length := by
  induction l with
  | nil => rfl
  | cons x xs ih => simp [sortTasks, length_insertSorted, ih]

/-- Field-level description of the inline transition. -/
theorem applyStatusTransition_eq (t : Task) (st : TaskStatus) (now : Int) :
    applyStatusTransition t st now =
      { t with
        status := st
        completedAt :=
          if st = .done then
            (if t.completedAt = none then some now else t.completedAt)
          else none
        startedAt :=
          if st = .inProgress ∧ t.startedAt = none then some now
          else t.startedAt } := by
  unfold applyStatusTransition
  cases st <;> cases hc : t.completedAt <;> cases hs : t.startedAt <;>
    simp [hc, hs]

/-- Field-level description of the hook on a status-modified document. -/
theorem preSaveHook_true_eq (t : Task) (now : Int) :
    preSaveHook t true now =
      { t with
        completedAt :=
          if t.status = .done then
            (if t.completedAt = none then some now else t.completedAt)
          else none
        startedAt :=
          if t.status = .inProgress ∧ t.startedAt = none then some now
          else t.startedAt } := by
  obtain ⟨i, ti, de, st0, pr, ow, co, tg, ca, cp, sa, du, es, cm, cA, uA⟩ := t
  unfold preSaveHook
  cases st0 <;> cases cp <;> cases sa <;> simp

theorem preSaveHook_false_eq (t : Task) (now : Int) :
    preSaveHook t false now = t := rfl

/-- C2: the status-transition logic - the caller-driven update
(`updateTaskStatus` lines 196-205 followed by the save hook) and the
model's `pre("save")` hook alike - produces exactly the specified side
effects: entering `done` with `completedAt` unset stamps it `now`;
leaving `done` clears it; entering `in-progress` with `startedAt` unset
stamps it `now`; a no-op transition on a well-formed task changes
nothing; and no field other than `status`, `completedAt` and `startedAt`
is ever touched. -/
theorem c2_status_transition_side_effects (t : Task) (st : TaskStatus)
    (now hookNow : Int) :
    ((st = .done → t.completedAt = none →
        (ctrlStatusChange t st now hookNow).completedAt = some now)
      ∧ (st ≠ .done → (ctrlStatusChange t st now hookNow).completedAt = none)
      ∧ (st = .inProgress → t.startedAt = none →
        (ctrlStatusChange t st now hookNow).startedAt = some now)
      ∧ (st ≠ .inProgress →
        (ctrlStatusChange t st now hookNow).startedAt = t.startedAt)
      ∧ (WFTask t → st = t.status → ctrlStatusChange t st now hookNow = t)
      ∧ ({ ctrlStatusChange t st now hookNow with
            status := t.status
            completedAt := t.completedAt
            startedAt := t.startedAt } = t))
    ∧ ((t.status = .done → t.completedAt = none →
        (preSaveHook t true hookNow).completedAt = some hookNow)
      ∧ (t.status ≠ .done → (preSaveHook t true hookNow).completedAt = none)
      ∧ (t.status = .inProgress → t.startedAt = none →
        (preSaveHook t true hookNow).startedAt = some hookNow)
      ∧ (preSaveHook t false hookNow = t)) := by
  simp only [ctrlStatusChange_eq_applyStatusTransition, applyStatusTransition_eq,
    preSaveHook_true_eq, preSaveHook_false_eq, WFTask]
  obtain ⟨i, ti, de, st0, pr, ow, co, tg, ca, cp, sa, du, es, cm, cA, uA⟩ := t
  cases st <;> cases st0 <;> cases cp <;> cases sa <;> simp_all

/-- Witness for C2: completing the sample task stamps `completedAt`; a
no-op transition leaves it untouched; the bare hook stamps `startedAt`
on a document entering progress. -/
theorem c2_witness :
    (ctrlStatusChange sampleTask .done 5 5).completedAt = some 5 ∧
    ctrlStatusChange sampleTask .pending 5 5 = sampleTask ∧
    (preSaveHook { sampleTask with status := .inProgress } true 7).startedAt
      = some 7 := by
  refine ⟨?_, ?_, ?_⟩
  · exact (c2_status_transition_side_effects sampleTask .done 5 5).1.1 rfl rfl
  · exact (c2_status_transition_side_effects
      sampleTask .pending 5 5).1.2.2.2.2.1 ⟨by decide, by decide⟩ rfl
  · exact (c2_status_transition_side_effects
      { sampleTask with status := .inProgress } .pending 0 7).2.2.2.1 rfl rfl

/-- C10: a supplied `userId` query parameter replaces the authenticated
identity wholesale (`const userId = req.query.userId || req.user?._id`),
so any authenticated caller lists any existing user's tasks, and the
request 404s exactly when the supplied id matches no user. -/
theorem c10_query_user_id_substitutes_identity (s : Store) (authUid u : Nat)
    (f : ListFilters) (p : ListParams) :
    getTasksHandler s authUid (some u) f p = getTasksHandler s u none f p ∧
      ((getTasksHandler s authUid (some u) f p).2.status = 404 ↔
        u ∉ s.users) := by
  refine ⟨rfl, ?_⟩
  unfold getTasksHandler
  by_cases h : u ∈ s.users <;> simp [h, Option.getD]

/-- C1, evaluated at the failing input: with `isCollaborator=true` and a
search term, line 125 of `getTasks` overwrites the `$or` visibility
clause built on line 114, so requester 1 is served the task of user 2
although user 1 neither owns it nor collaborates on it. -/
theorem c1_search_overwrites_visibility :
    (getTasksHandler c1Store 1 none c1Filters defaultParams).2 =
      ⟨200, .taskList [strangerTask] ⟨1, 1, 1, false, false⟩⟩ ∧
    strangerTask.userId ≠ 1 ∧ (1 : Nat) ∉ strangerTask.collaborators := by
  refine ⟨by decide, by decide, by decide⟩

/-- C4: a requester who is neither owner nor collaborator of the task
with the given id receives, from status update, delete, detail update
and comment alike, the constant 404 `"Task not found or not authorized"`
response with the store untouched - literally the response produced when
no task with that id exists at all. -/
theorem c4_unauthorized_indistinguishable_from_missing
    (s : Store) (uid tid : Nat) (st : TaskStatus)
    (inp : UpdateDetailsInput) (text : String) (now : Int)
    (hauth : ∀ t ∈ s.tasks, t.id = tid →
      uid ≠ t.userId ∧ uid ∉ t.collaborators)
    (hinp : updateRouteValidationErrors s.users inp = [])
    (htext : trimStr text ≠ "" ∧ (trimStr text).length ≤ 500) :
    updateTaskStatusHandler s uid tid st now = (s, notFoundResp) ∧
    deleteTaskHandler s uid tid = (s, notFoundResp) ∧
    updateTaskDetailsHandler s uid tid inp now = (s, notFoundResp) ∧
    addCommentHandler s uid tid text now = (s, notFoundResp) ∧
    (updateTaskStatusHandler s uid tid st now).2 =
      (updateTaskStatusHandler (removeTask s tid) uid tid st now).2 ∧
    (deleteTaskHandler s uid tid).2 =
      (deleteTaskHandler (removeTask s tid) uid tid).2 ∧
    (updateTaskDetailsHandler s uid tid inp now).2 =
      (updateTaskDetailsHandler (removeTask s tid) uid tid inp now).2 ∧
    (addCommentHandler s uid tid text now).2 =
      (addCommentHandler (removeTask s tid) uid tid text now).2 := by
  have hrm : ∀ t ∈ (removeTask s tid).tasks, t.id = tid →
      uid ≠ t.userId ∧ uid ∉ t.collaborators := by
    intro t ht hid
    rcases (List.mem_filter.mp ht) with ⟨-, hkeep⟩
    simp [hid] at hkeep
  have key : ∀ (l : List Task),
      (∀ t ∈ l, t.id = tid → uid ≠ t.userId ∧ uid ∉ t.collaborators) →
      l.find? (fun t => decide (t.id = tid) &&
          (decide (t.userId = uid) || decide (uid ∈ t.collaborators)))
        = none ∧
      l.find? (fun t => decide (t.id = tid) && decide (t.userId = uid))
        = none := by
    intro l hl
    constructor <;>
    · refine List.find?_eq_none.mpr ?_
      intro t ht
      by_cases hid : t.id = tid
      · obtain ⟨h1, h2⟩ := hl t ht hid
        have h1s : t.userId ≠ uid := Ne.symm h1
        simp [hid, h1s, h2]
      · simp [hid]
  obtain ⟨hoc, how⟩ := key s.tasks hauth
  obtain ⟨hocr, howr⟩ := key (removeTask s tid).tasks hrm
  have hincl : strIncludes
      (DbErr.plain "Task not found or not authorized").msgText
      "not found" = true := by decide
  have statusEq : ∀ (l : List Task) (hl : l.find? (fun t =>
      decide (t.id = tid) && (decide (t.userId = uid) ||
        decide (uid ∈ t.collaborators))) = none) (s2 : Store)
      (hs2 : s2.tasks = l),
      updateTaskStatusHandler s2 uid tid st now = (s2, notFoundResp) := by
    intro l hl s2 hs2
    unfold updateTaskStatusHandler
    rw [hs2, hl]
  have deleteEq : ∀ (l : List Task) (hl : l.find? (fun t =>
      decide (t.id = tid) && decide (t.userId = uid)) = none) (s2 : Store)
      (hs2 : s2.tasks = l),
      deleteTaskHandler s2 uid tid = (s2, notFoundResp) := by
    intro l hl s2 hs2
    unfold deleteTaskHandler
    rw [hs2, hl]
  have detailsEq : ∀ (s2 : Store) (hu : s2.users = s.users)
      (hl : s2.tasks.find? (fun t =>
        decide (t.id = tid) && decide (t.userId = uid)) = none),
      updateTaskDetailsHandler s2 uid tid inp now = (s2, notFoundResp) := by
    intro s2 hu hl
    unfold updateTaskDetailsHandler updateTaskDetailsCore
    rw [hu, hinp, hl]
    simp [notFoundResp, formatDbError, hincl]
  have commentEq : ∀ (s2 : Store) (hl : s2.tasks.find? (fun t =>
      decide (t.id = tid) && (decide (t.userId = uid) ||
        decide (uid ∈ t.collaborators))) = none),
      addCommentHandler s2 uid tid text now = (s2, notFoundResp) := by
    intro s2 hl
    unfold addCommentHandler
    rw [hl]
    simp [htext.1, htext.2, Nat.not_lt.mpr htext.2]
  have e1 := statusEq s.tasks hoc s rfl
  have e2 := deleteEq s.tasks how s rfl
  have e3 := detailsEq s rfl how
  have e4 := commentEq s hoc
  have f1 := statusEq _ hocr (removeTask s tid) rfl
  have f2 := deleteEq _ howr (removeTask s tid) rfl
  have f3 := detailsEq (removeTask s tid) rfl howr
  have f4 := commentEq (removeTask s tid) hocr
  exact ⟨e1, e2, e3, e4,
    by rw [e1, f1], by rw [e2, f2], by rw [e3, f3], by rw [e4, f4]⟩

/-- Witness for C4: user 1 attacking user 2's task gets the constant
404 from all four operations. -/
theorem c4_witness :
    updateTaskStatusHandler c1Store 1 0 .done 9 = (c1Store, notFoundResp) ∧
    deleteTaskHandler c1Store 1 0 = (c1Store, notFoundResp) ∧
    updateTaskDetailsHandler c1Store 1 0 emptyDetails 9
      = (c1Store, notFoundResp) ∧
    addCommentHandler c1Store 1 0 "hello" 9 = (c1Store, notFoundResp) := by
  obtain ⟨h1, h2, h3, h4, -⟩ :=
    c4_unauthorized_indistinguishable_from_missing c1Store 1 0 .done
      emptyDetails "hello" 9 (by decide) (by decide) ⟨by decide, by decide⟩
  exact ⟨h1, h2, h3, h4⟩

/-- C9: pagination skips exactly `(page−1)·limit` elements of the
sorted filtered set and returns at most `limit`, the reported total is
the size of the same filtered set ignoring pagination, and for
`total = 25, limit = 10, page = 3` the page has 5 items with
`hasNextPage = false` and `hasPrevPage = true`. -/
theorem c9_pagination_arithmetic (s : Store) (uid : Nat) (f : ListFilters)
    (p : ListParams) (huser : uid ∈ s.users) (hpage : 1 ≤ p.page) :
    ∃ items pag,
      (getTasksHandler s uid none f p).2
        = ⟨200, .taskList items pag⟩ ∧
      items = ((sortTasks (taskSortLe p.sortBy p.sortAsc)
          (s.tasks.filter (taskMatches (buildTaskQuery uid f)))).drop
          ((p.page - 1) * p.limit)).take p.limit ∧
      pag.totalTasks
        = (s.tasks.filter (taskMatches (buildTaskQuery uid f))).length ∧
      items.length = min p.limit (pag.totalTasks - (p.page - 1) * p.limit) ∧
      items.length ≤ p.limit ∧
      (pag.totalTasks = 25 → p.limit = 10 → p.page = 3 →
        items.length = 5 ∧ pag.hasNextPage = false ∧
          pag.hasPrevPage = true) := by
  unfold getTasksHandler
  rw [if_neg (by simp [huser])]
  refine ⟨_, _, rfl, rfl, rfl, ?_, ?_, ?_⟩
  · simp [List.length_take, List.length_drop, length_sortTasks]
  · simp [List.length_take]
  · intro h25 hlim hpag
    simp only [List.length_take, List.length_drop, length_sortTasks]
    rw [show (s.tasks.filter (taskMatches (buildTaskQuery
      ((none : Option Nat).getD uid) f))).length = 25 from h25, hlim, hpag]
    exact ⟨by decide, by decide, by decide⟩

/-- Witness for C9: 25 tasks, page 3 of size 10 - five items,
no next page, a previous page. -/
theorem c9_witness :
    ∃ items pag,
      (getTasksHandler c9Store 1 none noFilters c9Params).2
        = ⟨200, .taskList items pag⟩ ∧
      items.length = 5 ∧ pag.hasNextPage = false ∧
      pag.hasPrevPage = true := by
  obtain ⟨items, pag, heq, -, htot, -, -, hconc⟩ :=
    c9_pagination_arithmetic c9Store 1 noFilters c9Params (by decide)
      (by decide)
  obtain ⟨h5, hn, hp⟩ := hconc (by rw [htot]; decide) rfl rfl
  exact ⟨items, pag, heq, h5, hn, hp⟩

/-- C7: one sweep maps `sweepStep` over the collection; every
in-progress task whose `startedAt` lies more than two hours before the
sweep instant (and whose save validates) is closed with
`completedAt = now`, and every task started within the last two hours is
left exactly as it was. -/
theorem c7_reaper_correctness (s : Store) (now : Int) (t : Task) :
    (autoCloseTasks s now).tasks = s.tasks.map (sweepStep s.users now) ∧
    (∀ v, t.status = .inProgress → t.startedAt = some v →
      v < now - staleCutoffMs →
      validateTask s.users { t with
        status := TaskStatus.done
        completedAt := some now
        updatedAt := now } false now = [] →
      sweepStep s.users now t = { t with
        status := TaskStatus.done
        completedAt := some now
        updatedAt := now }) ∧
    (∀ v, t.startedAt = some v → ¬(v < now - staleCutoffMs) →
      sweepStep s.users now t = t) := by
  refine ⟨rfl, ?_, ?_⟩
  · intro v hst hsa hlt hval
    have hstale : taskIsStale now t = true := by
      simp [taskIsStale, hst, hsa, hlt]
    have hhook : preSaveHook { t with
        status := TaskStatus.done
        completedAt := some now
        updatedAt := now } true now
        = { t with
            status := TaskStatus.done
            completedAt := some now
            updatedAt := now } := by
      rw [preSaveHook_true_eq]
      simp
    unfold sweepStep
    rw [hstale]
    simp only [hhook, hval]
    rfl
  · intro v hsa hge
    have hstale : taskIsStale now t = false := by
      simp [taskIsStale, hsa, hge]
    unfold sweepStep
    rw [hstale]
    simp

/-- Witness for C7: the task started 3h before the sweep is closed with
`completedAt` stamped; the one started 1h before is untouched. -/
theorem c7_witness :
    sweepStep c7Store.users c7Now staleTask
      = { staleTask with
          status := TaskStatus.done
          completedAt := some c7Now
          updatedAt := c7Now } ∧
    sweepStep c7Store.users c7Now freshTask = freshTask := by
  constructor
  · exact (c7_reaper_correctness c7Store c7Now staleTask).2.1
      (c7Now - 10800000) rfl rfl (by decide) (by decide)
  · exact (c7_reaper_correctness c7Store c7Now freshTask).2.2
      (c7Now - 3600000) rfl (by decide)

/-- A single transition never changes a set `startedAt`. -/
theorem startedAt_preserved (t : Task) (st : TaskStatus) (now hookNow : Int)
    (v : Int) (h : t.startedAt = some v) :
    (ctrlStatusChange t st now hookNow).startedAt = some v := by
  rw [ctrlStatusChange_eq_applyStatusTransition, applyStatusTransition_eq]
  simp [h]

/-- C8: once `startedAt` is set, no sequence of further status
transitions - through the caller-driven path (inline mutation plus save
hook) or the bare hook, regressions to pending and reopenings from done
included - ever unsets or changes it. -/
theorem c8_startedAt_monotonic (t : Task) (v : Int)
    (hset : t.startedAt = some v) (steps : List (TaskStatus × Int)) :
    ((steps.foldl (fun u p => ctrlStatusChange u p.1 p.2 p.2) t).startedAt
      = some v) ∧
    (∀ (b : Bool) (now : Int), (preSaveHook t b now).startedAt = some v) := by
  constructor
  · induction steps generalizing t with
    | nil => simpa using hset
    | cons p rest ih =>
        simp only [List.foldl_cons]
        exact ih _ (startedAt_preserved t p.1 p.2 p.2 v hset)
  · intro b now
    cases b
    · simpa [preSaveHook_false_eq] using hset
    · rw [preSaveHook_true_eq]
      simp [hset]

/-- Witness for C8: a task started at 3 keeps `startedAt = 3` through
done, a regression to pending and a reopen to in-progress. -/
theorem c8_witness :
    (([(TaskStatus.done, (10 : Int)), (TaskStatus.pending, 20),
        (TaskStatus.inProgress, 30)].foldl
      (fun u p => ctrlStatusChange u p.1 p.2 p.2)
      { sampleTask with
        status := TaskStatus.inProgress
        startedAt := some 3 }).startedAt = some 3) :=
  (c8_startedAt_monotonic
    { sampleTask with
      status := TaskStatus.inProgress
      startedAt := some 3 } 3 rfl _).1

/-- The inline transition always lands in a timestamp-consistent
state. -/
theorem timestampInv_applyStatusTransition (t : Task) (st : TaskStatus)
    (now : Int) : TimestampInv (applyStatusTransition t st now) := by
  rw [applyStatusTransition_eq]
  cases st <;> cases hc : t.completedAt <;> simp [TimestampInv, hc]

/-- A successful `createTaskCore` returns exactly the document built by
`createdTask`. -/
theorem createTaskCore_ok_eq (s : Store) (now : Int) (uid : Nat)
    (inp : CreateInput) (t : Task)
    (h : createTaskCore s now uid inp = .ok t) :
    t = createdTask s now uid inp := by
  unfold createTaskCore at h
  split at h
  · exact absurd h (by simp)
  split at h
  · exact absurd h (by simp)
  split at h
  · exact absurd h (by simp)
  dsimp only at h
  split at h
  · exact absurd h (by simp)
  split at h
  · exact absurd h (by simp)
  exact (Except.ok.injEq _ _ ▸ h).symm

/-- Partial detail assignments never touch `status`, `completedAt` or
`startedAt`. -/
theorem applyDetails_fields (t : Task) (inp : UpdateDetailsInput) :
    (applyDetails t inp).status = t.status ∧
    (applyDetails t inp).completedAt = t.completedAt ∧
    (applyDetails t inp).startedAt = t.startedAt := by
  unfold applyDetails
  rcases inp with ⟨t1, d1, p1, dd1, e1, tg1, c1, co1⟩
  cases t1 <;> cases d1 <;> cases p1 <;> cases dd1 <;> cases e1 <;>
    cases tg1 <;> cases c1 <;>
    simp [setTitleField, setDescriptionField, setPriorityField,
      setDueDateField, setEstimatedTimeField, setTagsField,
      setCategoryField]

/-- A successful detail update modifies some stored task without
touching its `status`, `completedAt` or `startedAt`. -/
theorem updateTaskDetailsCore_ok_fields (s : Store) (uid tid : Nat)
    (inp : UpdateDetailsInput) (now : Int) (t4 : Task)
    (h : updateTaskDetailsCore s uid tid inp now = .ok t4) :
    ∃ t0 ∈ s.tasks, t4.status = t0.status ∧
      t4.completedAt = t0.completedAt ∧ t4.startedAt = t0.startedAt := by
  unfold updateTaskDetailsCore at h
  split at h
  · exact absurd h (by simp)
  case _ t0 hfind =>
    have hmem : t0 ∈ s.tasks := List.mem_of_find?_eq_some hfind
    obtain ⟨hs0, hc0, ha0⟩ := applyDetails_fields t0 inp
    split at h
    · exact absurd h (by simp)
    cases hco : inp.collaborators with
    | none =>
        simp only [hco] at h
        split at h
        · exact absurd h (by simp)
        split at h
        · exact absurd h (by simp)
        refine ⟨t0, hmem, ?_⟩
        have ht4 := (Except.ok.injEq _ _ ▸ h)
        simp [← ht4, hs0, hc0, ha0]
    | some ids =>
        simp only [hco] at h
        split at h
        · exact absurd h (by simp)
        split at h
        · exact absurd h (by simp)
        refine ⟨t0, hmem, ?_⟩
        have ht4 := (Except.ok.injEq _ _ ▸ h)
        simp [← ht4, hs0, hc0, ha0]

/-- The hook finds nothing to do on a freshly closed document. -/
theorem preSaveHook_close (t : Task) (now : Int) :
    preSaveHook { t with
      status := TaskStatus.done
      completedAt := some now
      updatedAt := now } true now
      = { t with
          status := TaskStatus.done
          completedAt := some now
          updatedAt := now } := by
  rw [preSaveHook_true_eq]
  simp

/-- One reaper step either leaves a task alone or closes it with
`completedAt = now`. -/
theorem sweepStep_cases (users : List Nat) (now : Int) (t : Task) :
    sweepStep users now t = t ∨
    sweepStep users now t = { t with
      status := TaskStatus.done
      completedAt := some now
      updatedAt := now } := by
  unfold sweepStep
  split
  · simp only [preSaveHook_close]
    split
    · right
      rfl
    · left
      rfl
  · left
    rfl

/-- Membership in a replaced collection: the new document or an old
one. -/
theorem mem_replaceTask (s : Store) (tid : Nat) (t2 u : Task)
    (hu : u ∈ (replaceTask s tid t2).tasks) :
    u = t2 ∨ u ∈ s.tasks := by
  unfold replaceTask at hu
  rcases List.mem_map.mp hu with ⟨w, hw, hfw⟩
  by_cases hid : w.id = tid
  · left
    rw [← hfw]
    simp [hid]
  · right
    rw [← hfw]
    simpa [hid] using hw

/-- The store after `createTask`: unchanged on failure, the new
document appended on success. -/
theorem createTaskHandler_store (s : Store) (now : Int) (uid : Nat)
    (inp : CreateInput) :
    (createTaskHandler s now uid inp).1 = s ∨
    (createTaskHandler s now uid inp).1
      = { s with
          tasks := s.tasks ++ [createdTask s now uid inp]
          nextId := s.nextId + 1 } := by
  unfold createTaskHandler
  simp only [ne_eq]
  by_cases hv : createRouteValidationErrors s.users inp ≠ []
  · rw [if_pos hv]
    left
    rfl
  · rw [if_neg hv]
    split
    · rename_i t heq
      right
      rw [createTaskCore_ok_eq s now uid inp t heq]
    · rename_i e heq
      split
      · left
        rfl
      split
      · left
        rfl
      · left
        rfl

/-- The store after `updateTaskStatus`: unchanged, or one stored task
replaced by its transitioned save. -/
theorem updateTaskStatusHandler_store (s : Store) (uid tid : Nat)
    (st : TaskStatus) (now : Int) :
    (updateTaskStatusHandler s uid tid st now).1 = s ∨
    ∃ t0 ∈ s.tasks, (updateTaskStatusHandler s uid tid st now).1
      = replaceTask s tid
          { ctrlStatusChange t0 st now now with updatedAt := now } := by
  unfold updateTaskStatusHandler
  split
  · left
    rfl
  · rename_i t0 hfind
    simp only [ne_eq]
    split
    · left
      rfl
    · right
      exact ⟨t0, List.mem_of_find?_eq_some hfind, rfl⟩

/-- The store after `deleteTask`: unchanged or with the document
erased. -/
theorem deleteTaskHandler_store (s : Store) (uid tid : Nat) :
    (deleteTaskHandler s uid tid).1 = s ∨
    (deleteTaskHandler s uid tid).1
      = { s with tasks := s.tasks.eraseP fun t => decide (t.id = tid) } := by
  unfold deleteTaskHandler
  split
  · left
    rfl
  · right
    rfl

/-- The store after `updateTaskDetails`: unchanged, or one task
replaced by the successful core result. -/
theorem updateTaskDetailsHandler_store (s : Store) (uid tid : Nat)
    (inp : UpdateDetailsInput) (now : Int) :
    (updateTaskDetailsHandler s uid tid inp now).1 = s ∨
    ∃ t4, updateTaskDetailsCore s uid tid inp now = .ok t4 ∧
      (updateTaskDetailsHandler s uid tid inp now).1
        = replaceTask s tid t4 := by
  unfold updateTaskDetailsHandler
  simp only [ne_eq]
  by_cases hv : updateRouteValidationErrors s.users inp ≠ []
  · rw [if_pos hv]
    left
    rfl
  · rw [if_neg hv]
    split
    · rename_i t4 heq
      right
      exact ⟨t4, heq, rfl⟩
    · rename_i e heq
      split
      · left
        rfl
      split
      · left
        rfl
      · left
        rfl

/-- The store after `addComment`: unchanged, or one stored task
replaced with a comment appended (status and timestamps untouched). -/
theorem addCommentHandler_store (s : Store) (uid tid : Nat) (text : String)
    (now : Int) :
    (addCommentHandler s uid tid text now).1 = s ∨
    ∃ t0 ∈ s.tasks, (addCommentHandler s uid tid text now).1
      = replaceTask s tid
          { t0 with
            comments := t0.comments ++ [⟨uid, trimStr text, now⟩]
            updatedAt := now } := by
  unfold addCommentHandler
  simp only [ne_eq]
  by_cases hv : ((if trimStr text = "" then ["Comment text is required"]
      else []) ++ (if (trimStr text).length > 500 then
        ["Comment must be 500 characters or less"] else [])) = []
  · rw [if_neg (not_not_intro hv)]
    split
    · left
      rfl
    · rename_i t0 hfind
      split
      · left
        rfl
      · right
        exact ⟨t0, List.mem_of_find?_eq_some hfind, rfl⟩
  · rw [if_pos hv]
    left
    rfl

/-- Every exposed operation preserves the timestamp invariant on every
stored task. -/
theorem timestampInv_applyOp (s : Store) (op : Op)
    (hinv : ∀ t ∈ s.tasks, TimestampInv t) :
    ∀ t ∈ (applyOp s op).tasks, TimestampInv t := by
  cases op with
  | create uid inp now =>
      dsimp only [applyOp]
      rcases createTaskHandler_store s now uid inp with h | h <;> rw [h]
      · exact hinv
      · intro u hu
        rcases List.mem_append.mp hu with hm | hm
        · exact hinv u hm
        · have hrepl : u = createdTask s now uid inp := by simpa using hm
          subst hrepl
          simp [TimestampInv, createdTask]
  | updateStatus uid tid st now =>
      dsimp only [applyOp]
      rcases updateTaskStatusHandler_store s uid tid st now with
        h | ⟨t0, hmem, h⟩ <;> rw [h]
      · exact hinv
      · intro u hu
        rcases mem_replaceTask _ _ _ _ hu with rfl | hm
        · have hstep := timestampInv_applyStatusTransition t0 st now
          simpa [TimestampInv, ctrlStatusChange_eq_applyStatusTransition]
            using hstep
        · exact hinv u hm
  | updateDetails uid tid inp now =>
      dsimp only [applyOp]
      rcases updateTaskDetailsHandler_store s uid tid inp now with
        h | ⟨t4, hok, h⟩ <;> rw [h]
      · exact hinv
      · intro u hu
        rcases mem_replaceTask _ _ _ _ hu with rfl | hm
        · obtain ⟨t0, hmem0, hs0, hc0, ha0⟩ :=
            updateTaskDetailsCore_ok_fields s uid tid inp now u hok
          have hbase := hinv t0 hmem0
          simpa [TimestampInv, hs0, hc0] using hbase
        · exact hinv u hm
  | delete uid tid =>
      dsimp only [applyOp]
      rcases deleteTaskHandler_store s uid tid with h | h <;> rw [h]
      · exact hinv
      · intro u hu
        exact hinv u ((List.eraseP_sublist _).subset hu)
  | comment uid tid text now =>
      dsimp only [applyOp]
      rcases addCommentHandler_store s uid tid text now with
        h | ⟨t0, hmem, h⟩ <;> rw [h]
      · exact hinv
      · intro u hu
        rcases mem_replaceTask _ _ _ _ hu with rfl | hm
        · have hbase := hinv t0 hmem
          simpa [TimestampInv] using hbase
        · exact hinv u hm
  | sweep now =>
      dsimp only [applyOp]
      unfold autoCloseTasks
      intro u hu
      rcases List.mem_map.mp hu with ⟨w, hw, hfw⟩
      rcases sweepStep_cases s.users now w with h | h <;> rw [← hfw, h]
      · exact hinv w hw
      · simp [TimestampInv]

/-- C3: in every store reachable from an empty task collection through
any sequence of creates, status updates, detail updates, deletes,
comments and reaper sweeps, every persisted task satisfies
`status = done ⟺ completedAt` set. -/
theorem c3_done_iff_completedAt (users : List Nat) (s : Store)
    (h : Reachable users s) :
    ∀ t ∈ s.tasks, (t.status = TaskStatus.done ↔ t.completedAt ≠ none) := by
  induction h with
  | init =>
      intro t ht
      simp at ht
  | step op hs ih => exact timestampInv_applyOp _ op ih

/-- Witness for C3: the invariant holds in the concrete store reached
by creating the sample task and then completing it. -/
theorem c3_witness :
    ((applyOp (applyOp ⟨[1], [], 0⟩ (.create 1 shipInput 5))
        (.updateStatus 1 0 .done 9)).tasks.all fun t =>
      decide (t.status = TaskStatus.done ↔ t.completedAt ≠ none)) = true :=
  List.all_eq_true.mpr fun t ht => decide_eq_true
    (c3_done_iff_completedAt [1] _
      (Reachable.step _ (Reachable.step _ Reachable.init)) t ht)

/-- C6: a create request naming a collaborator id that resolves to no
user is rejected by the route's validation chain with a 400 whose error
list names the offending id, and no task is persisted. -/
theorem c6_bogus_collaborator_rejected (s : Store) (now : Int) (uid c : Nat)
    (inp : CreateInput) (ids : List Nat)
    (hcol : inp.collaborators = some ids) (hmem : c ∈ ids)
    (habs : c ∉ s.users) :
    (createTaskHandler s now uid inp).1 = s ∧
    ∃ es, (createTaskHandler s now uid inp).2
        = ⟨400, .validationErrors es⟩ ∧
      ("Collaborator with ID " ++ toString c ++ " does not exist") ∈ es := by
  have hmsg : ("Collaborator with ID " ++ toString c ++ " does not exist")
      ∈ createRouteValidationErrors s.users inp := by
    unfold createRouteValidationErrors
    rw [hcol]
    refine List.mem_append.mpr (Or.inr ?_)
    refine List.mem_append.mpr (Or.inr ?_)
    exact List.mem_filterMap.mpr ⟨c, hmem, by simp [habs]⟩
  have hne : createRouteValidationErrors s.users inp ≠ [] :=
    List.ne_nil_of_mem hmsg
  unfold createTaskHandler
  simp only [ne_eq]
  rw [if_pos hne]
  exact ⟨rfl, createRouteValidationErrors s.users inp, rfl, hmsg⟩

/-- Witness for C6: collaborator 42 does not exist, so the create is a
400 naming id 42 and the store is untouched. -/
theorem c6_witness :
    (createTaskHandler c6Store 7 1 c6Input).1 = c6Store ∧
    ∃ es, (createTaskHandler c6Store 7 1 c6Input).2
        = ⟨400, .validationErrors es⟩ ∧
      ("Collaborator with ID " ++ toString (42 : Nat) ++ " does not exist")
        ∈ es :=
  c6_bogus_collaborator_rejected c6Store 7 1 42 c6Input [42] rfl
    (by decide) (by decide)

/-- C5 counterexample: the duplicate-title create and a pure mongoose
validation failure produce the *same* status 400 and the same
`{message}` body shape - the only difference is the message text, so
there is no distinct Conflict error kind in the operation's outcome. -/
theorem c5_counterexample :
    (createTaskHandler c5Store 7 1 c5DupInput).2.status = 400 ∧
    (createTaskHandler c5Store 7 1 c5DupInput).2.body
      = .msg "Task with this title already exists for this user" ∧
    (createTaskHandler c5Store 7 1 c5InvalidInput).2.status = 400 ∧
    (createTaskHandler c5Store 7 1 c5InvalidInput).2.body
      = .msg "Validation failed: Title too long" ∧
    (createTaskHandler c5Store 7 1 c5DupInput).2.status
      = (createTaskHandler c5Store 7 1 c5InvalidInput).2.status :=
  ⟨by decide, by decide, by decide, by decide, by decide⟩

/-- C5 amended: a duplicate (title, ownerId) create fails with an HTTP
400 response carrying the message
`"Task with this title already exists for this user"` and leaves the
store unchanged - a different status than NotFound (404) and generic
failures (500), but the same status and body shape as a mongoose
validation failure. -/
theorem c5_duplicate_yields_400_message (s : Store) (now : Int) (uid : Nat)
    (inp : CreateInput)
    (hroute : createRouteValidationErrors s.users inp = [])
    (huser : uid ∈ s.users)
    (hdup : s.tasks.any (fun t =>
      t.title == trimStr inp.title && t.userId == uid) = true) :
    createTaskHandler s now uid inp
      = (s, ⟨400,
          .msg "Task with this title already exists for this user"⟩) := by
  have hcore : createTaskCore s now uid inp
      = .error (.plain "Task with this title already exists for this user") := by
    unfold createTaskCore
    rw [if_neg (not_not_intro huser), if_pos hdup]
  have hb : strIncludes (DbErr.plain
      "Task with this title already exists for this user").msgText
      "already exists" = true := by decide
  unfold createTaskHandler
  simp only [ne_eq]
  rw [if_neg (not_not_intro hroute), hcore]
  simp [hb, formatDbError]

/-- Witness for C5: duplicating the sample task's title for owner 1. -/
theorem c5_witness :
    createTaskHandler c5Store 7 1 c5DupInput
      = (c5Store, ⟨400,
          .msg "Task with this title already exists for this user"⟩) :=
  c5_duplicate_yields_400_message c5Store 7 1 c5DupInput (by decide)
    (by decide) (by decide)

end TaskApp
